import Mathlib

/-!
Verification development for the fa_gateway_smtp2sms repository
(src/fa_gateway_smtp2sms.py): an SMTP server receiving emails and
forwarding them as SMS through the Aruba REST API.

The embedding is shallow: strings are modeled as lists of characters,
the Python str.split method (single-character separator) is modeled by
pySplit, and the responses of the two outgoing HTTP calls (the login GET
and the sms POST) are supplied by an Env record, so the handler becomes a
pure function of the envelope and the environment.  Raised exceptions
(IndexError, ValueError, transport errors from the requests library) and
the sys.exit call are explicit constructors of the outcome types.
-/

namespace FaGateway

/-- Python str.split with a one-character separator: cuts the character
list at every occurrence of sep.  The result always has at least one
piece (Python: "".split(c) = [""]). -/
def pySplit (sep : Char) : List Char → List (List Char)
  | [] => [[]]
  | c :: rest =>
    if c = sep then [] :: pySplit sep rest
    else
      let ps := pySplit sep rest
      (c :: ps.headD []) :: ps.tail

/-- Result of an HTTP request made through the requests library: either a
response object, or a transport-level exception (timeout, connection
refused, TLS failure) raised by the library call itself. -/
inductive HttpResult (α : Type) where
  | ok (resp : α)
  | transportError
deriving DecidableEq, Repr

/-- The HTTP response seen by the login call: status code and body text. -/
structure HttpResponse where
  status_code : Nat
  text : List Char
deriving DecidableEq, Repr

/-- The HTTP response to the sms POST.  The body is modeled already parsed
into the string-valued fields of the JSON object that json.loads would
return; the code only reads it (on status 201) through dict.get. -/
structure SmsHttpResponse where
  status_code : Nat
  json_fields : List (List Char × List Char)
deriving DecidableEq, Repr

/-- Outcome of the login function (source lines 44-59): a returned value
(None, or the (user_key, session_key) pair), or a raised exception. -/
inductive LoginOutcome where
  | returns (keys : Option (List Char × List Char))
  | raisesValueError
  | raisesTransportError
deriving DecidableEq, Repr

/-- login(username, password), source lines 44-59: issues a GET; the
response is supplied by the environment (username and password only feed
the request URL).  Returns None unless the status code is exactly 200;
on 200 the unpacking assignment over response.text.split of a semicolon
raises ValueError unless the split has exactly two fields. -/
def login (_username _password : List Char)
    (httpGet : HttpResult HttpResponse) : LoginOutcome :=
  match httpGet with
  | .transportError => .raisesTransportError
  | .ok resp =>
    if resp.status_code ≠ 200 then .returns none
    else
      match pySplit ';' resp.text with
      | [user_key, session_key] => .returns (some (user_key, session_key))
      | _ => .raisesValueError

/-- Message quality constant, source line 23. -/
def MESSAGE_HIGH_QUALITY : List Char := "N".data

/-- The sms_payload dictionary built at source lines 126-132. -/
structure SmsPayload where
  message : List Char
  message_type : List Char
  returnCredits : Bool
  recipient : List (List Char)
  sender : List Char
deriving DecidableEq, Repr

/-- Outcome of the send_sms function (source lines 62-85): a returned
value (None, or the parsed JSON object), or a raised transport error. -/
inductive SendSmsOutcome where
  | returns (v : Option (List (List Char × List Char)))
  | raisesTransportError
deriving DecidableEq, Repr

/-- send_sms(auth_keys, sms_payload), source lines 62-85: issues a POST
with the keys in the headers and the JSON-encoded payload as body; the
response is supplied by the environment.  Returns None unless the status
code is exactly 201, otherwise the JSON object parsed from the response
body.  A transport failure of the POST propagates as an exception. -/
def send_sms (_auth_keys : List Char × List Char) (_sms_payload : SmsPayload)
    (httpPost : HttpResult SmsHttpResponse) : SendSmsOutcome :=
  match httpPost with
  | .transportError => .raisesTransportError
  | .ok resp =>
    if resp.status_code ≠ 201 then .returns none
    else .returns (some resp.json_fields)

/-- The SMTP envelope as handed to handle_DATA.  content_str stands for
the string serialization str(message_from_bytes(envelope.content,
policy=default)) of the parsed message, source lines 109 and 117. -/
structure Envelope where
  mail_from : List Char
  rcpt_tos : List (List Char)
  content_str : List Char
deriving DecidableEq, Repr

/-- The environment of one handle_DATA invocation: the responses the two
HTTP calls would receive from the network. -/
structure Env where
  loginResponse : HttpResult HttpResponse
  smsResponse : HttpResult SmsHttpResponse
deriving DecidableEq, Repr

/-- How one handle_DATA invocation ends: an SMTP response string returned
to the SMTP engine, a process abort through sys.exit, or an unhandled
exception escaping the handler. -/
inductive Outcome where
  | reply (code : String)
  | processExit (code : Int)
  | raisesIndexError
  | raisesValueError
  | raisesTransportError
deriving DecidableEq, Repr

/-- Observable side effects of one handle_DATA invocation: number of
login calls made, the payload of every send_sms call in order, and, when
the final branch at source lines 137-140 is reached, whether its success
condition (sent_sms truthy and its result field equal to "OK") held. -/
structure Trace where
  loginCalls : Nat
  smsCalls : List SmsPayload
  sentOk : Option Bool
deriving DecidableEq, Repr

/-- Source line 112: recipient_number = str(rcpt_tos[0]).split of the at
sign, piece 0 (which always exists, split being nonempty). -/
def recipient_number_of (rcpt0 : List Char) : List Char :=
  (pySplit '@' rcpt0).headD []

/-- Source line 117: message_content = str(email_message).split of the
greater-than sign, piece 2; none models the IndexError raised when the
split has fewer than three pieces. -/
def message_content_of (s : List Char) : Option (List Char) :=
  (pySplit '>' s).get? 2

/-- The sms_payload dictionary built at source lines 126-132 from the
extracted message content and recipient number. -/
def sms_payload_of (message_content recipient_number : List Char) : SmsPayload :=
  ⟨message_content, MESSAGE_HIGH_QUALITY, false,
    [recipient_number], "ACME".data⟩

/-- The success condition of source line 137: sent_sms is truthy and its
result field equals the string OK. -/
def sent_ok (sent_sms : Option (List (List Char × List Char))) : Bool :=
  match sent_sms with
  | some fields => fields.lookup "result".data == some "OK".data
  | none => false

/-- SMTPHandler.handle_DATA, source lines 92-142, as a pure function of
the envelope and the environment, paired with its side-effect trace.
Indexing rcpt_tos at 0 raises IndexError on an empty recipient list
(line 112); the body slicing raises IndexError when the serialization
splits into fewer than three pieces (line 117); a login returning None
triggers sys.exit(-1) (line 123); otherwise the payload is built and
sent, and the handler returns the string 250 OK unconditionally
(line 142). -/
def handle_DATA (env : Env) (envelope : Envelope) : Outcome × Trace :=
  match envelope.rcpt_tos with
  | [] => (.raisesIndexError, ⟨0, [], none⟩)
  | rcpt0 :: _ =>
    match message_content_of envelope.content_str with
    | none => (.raisesIndexError, ⟨0, [], none⟩)
    | some message_content =>
      match login "john".data "paswd1234".data env.loginResponse with
      | .raisesTransportError => (.raisesTransportError, ⟨1, [], none⟩)
      | .raisesValueError => (.raisesValueError, ⟨1, [], none⟩)
      | .returns none => (.processExit (-1), ⟨1, [], none⟩)
      | .returns (some auth_keys) =>
        match send_sms auth_keys
            (sms_payload_of message_content (recipient_number_of rcpt0))
            env.smsResponse with
        | .raisesTransportError =>
          (.raisesTransportError,
            ⟨1, [sms_payload_of message_content (recipient_number_of rcpt0)],
              none⟩)
        | .returns sent_sms =>
          (.reply "250 OK",
            ⟨1, [sms_payload_of message_content (recipient_number_of rcpt0)],
              some (sent_ok sent_sms)⟩)

/-! ### Basic facts about pySplit -/

theorem pySplit_ne_nil (sep : Char) (s : List Char) : pySplit sep s ≠ [] := by
  cases s with
  | nil => simp [pySplit]
  | cons c rest =>
    simp only [pySplit]
    split <;> simp

theorem pySplit_length (sep : Char) (s : List Char) :
    (pySplit sep s).length = s.count sep + 1 := by
  induction s with
  | nil => simp [pySplit]
  | cons c rest ih =>
    by_cases h : c = sep
    · subst h
      simp [pySplit, ih, List.count_cons]
    · cases hps : pySplit sep rest with
      | nil => exact absurd hps (pySplit_ne_nil sep rest)
      | cons p ps =>
        rw [hps] at ih
        simp only [pySplit, if_neg h, hps, List.headD_cons, List.tail_cons,
          List.length_cons, List.count_cons]
        simp only [List.length_cons] at ih
        simp [h, ← ih]

theorem pySplit_append_sep (sep : Char) (a b : List Char) (ha : sep ∉ a) :
    pySplit sep (a ++ sep :: b) = a :: pySplit sep b := by
  induction a with
  | nil => simp [pySplit]
  | cons c a2 ih =>
    have hc : ¬ c = sep := fun h => ha (by simp [h])
    have ha2 : sep ∉ a2 := fun h => ha (List.mem_cons_of_mem _ h)
    simp [pySplit, hc, ih ha2]

theorem pySplit_no_sep (sep : Char) (a : List Char) (ha : sep ∉ a) :
    pySplit sep a = [a] := by
  induction a with
  | nil => simp [pySplit]
  | cons c a2 ih =>
    have hc : ¬ c = sep := fun h => ha (by simp [h])
    have ha2 : sep ∉ a2 := fun h => ha (List.mem_cons_of_mem _ h)
    simp [pySplit, hc, ih ha2]

/-- The line 112 extraction on an address of the shape localpart, at
sign, domain: the result is exactly the local part. -/
theorem recipient_number_localpart (lp dom : List Char) (h : '@' ∉ lp) :
    recipient_number_of (lp ++ '@' :: dom) = lp := by
  simp [recipient_number_of, pySplit_append_sep '@' lp dom h]

/-- When the serialization holds fewer than two greater-than characters,
the line 117 slicing has no piece 2 and raises IndexError. -/
theorem message_content_of_eq_none (s : List Char) (h : s.count '>' < 2) :
    message_content_of s = none := by
  rw [message_content_of]
  apply List.get?_eq_none.mpr
  rw [pySplit_length]
  omega

/-- When the serialization decomposes as p0, a greater-than sign, p1, a
greater-than sign, p2, then a remainder that is empty or starts with a
greater-than sign, the line 117 slicing yields exactly p2. -/
theorem message_content_of_between (p0 p1 p2 r : List Char)
    (h0 : '>' ∉ p0) (h1 : '>' ∉ p1) (h2 : '>' ∉ p2)
    (hr : r = [] ∨ ∃ t, r = '>' :: t) :
    message_content_of (p0 ++ '>' :: (p1 ++ '>' :: (p2 ++ r))) = some p2 := by
  rw [message_content_of, pySplit_append_sep '>' p0 _ h0,
    pySplit_append_sep '>' p1 _ h1]
  rcases hr with rfl | ⟨t, rfl⟩
  · rw [List.append_nil, pySplit_no_sep '>' p2 h2]
    rfl
  · rw [pySplit_append_sep '>' p2 t h2]
    rfl

/-! ### Claims -/

/-- Claim C9: for every non-empty recipient list whose first address has
the shape localpart, at sign, domain, the phone number extracted at
source line 112 equals the local part, and recipients after the first
have no effect on the behaviour of handle_DATA. -/
theorem c9_first_recipient_localpart (env : Env) (mf lp dom s : List Char)
    (rest rest2 : List (List Char)) (h : '@' ∉ lp) :
    recipient_number_of (lp ++ '@' :: dom) = lp ∧
    handle_DATA env ⟨mf, (lp ++ '@' :: dom) :: rest, s⟩ =
      handle_DATA env ⟨mf, (lp ++ '@' :: dom) :: rest2, s⟩ :=
  ⟨recipient_number_localpart lp dom h, rfl⟩

/-- Witness for claim C9 at a concrete transaction. -/
theorem c9_first_recipient_localpart_witness :
    ('@' ∉ "15551234567".data) ∧
    (recipient_number_of ("15551234567".data ++ '@' :: "gw.local".data) =
        "15551234567".data ∧
      handle_DATA ⟨.transportError, .transportError⟩
          ⟨"fa".data, ("15551234567".data ++ '@' :: "gw.local".data) ::
            ["x@y".data], "s".data⟩ =
        handle_DATA ⟨.transportError, .transportError⟩
          ⟨"fa".data, ("15551234567".data ++ '@' :: "gw.local".data) ::
            [], "s".data⟩) :=
  ⟨by decide,
    c9_first_recipient_localpart ⟨.transportError, .transportError⟩
      "fa".data "15551234567".data "gw.local".data "s".data
      ["x@y".data] [] (by decide)⟩

/-- Claim C10: the body extraction at source line 117 is partial in the
sense that a serialization with fewer than two greater-than characters
makes handle_DATA raise IndexError with no API call and no SMTP response;
and when the serialization decomposes around its second greater-than
sign, the extracted body is exactly the text between the second
greater-than sign and the third one (or the end of the string), not a
MIME part. -/
theorem c10_body_slicing_partial (env : Env) (mf r0 s : List Char)
    (rest : List (List Char)) (p0 p1 p2 r : List Char)
    (hs : s.count '>' < 2)
    (h0 : '>' ∉ p0) (h1 : '>' ∉ p1) (h2 : '>' ∉ p2)
    (hr : r = [] ∨ ∃ t, r = '>' :: t) :
    handle_DATA env ⟨mf, r0 :: rest, s⟩ = (.raisesIndexError, ⟨0, [], none⟩) ∧
    message_content_of (p0 ++ '>' :: (p1 ++ '>' :: (p2 ++ r))) = some p2 := by
  refine ⟨?_, message_content_of_between p0 p1 p2 r h0 h1 h2 hr⟩
  have h := message_content_of_eq_none s hs
  unfold handle_DATA
  simp [h]

/-- Witness for claim C10 at a concrete transaction. -/
theorem c10_body_slicing_partial_witness :
    (("Subject: hi".data : List Char).count '>' < 2 ∧
      '>' ∉ "a".data ∧ '>' ∉ "b".data ∧ '>' ∉ "c".data ∧
      (([] : List Char) = [] ∨ ∃ t, ([] : List Char) = '>' :: t)) ∧
    (handle_DATA ⟨.transportError, .transportError⟩
        ⟨"fa".data, "1@x".data :: [], "Subject: hi".data⟩ =
        (.raisesIndexError, ⟨0, [], none⟩) ∧
      message_content_of
          ("a".data ++ '>' :: ("b".data ++ '>' :: ("c".data ++ []))) =
        some "c".data) :=
  ⟨⟨by decide, by decide, by decide, by decide, Or.inl rfl⟩,
    c10_body_slicing_partial ⟨.transportError, .transportError⟩
      "fa".data "1@x".data "Subject: hi".data []
      "a".data "b".data "c".data []
      (by decide) (by decide) (by decide) (by decide) (Or.inl rfl)⟩

/-- Claim C1 (code_bug evidence): on a well-formed transaction whose
login GET answers with status 500, login returns None and handle_DATA
aborts the whole process through sys.exit(-1) instead of resolving the
failure into an SMTP response: the abort branch at source line 123 is
reachable from handle_DATA. -/
theorem c1_login_failure_exits_process :
    handle_DATA ⟨.ok ⟨500, []⟩, .transportError⟩
      ⟨"fa".data, ["15551234567@gw.local".data], "a>b>c".data⟩ =
    (.processExit (-1), ⟨1, [], none⟩) := by decide

/-- Claim C4 (code_bug evidence): a plain-text message whose
serialization is Subject line, blank line, body holds a plain-text part
with text Your code is 4821, yet handle_DATA raises IndexError (the
serialization has no greater-than character for the line 117 slicing),
even with a fully working API environment, instead of extracting that
text. -/
theorem c4_plaintext_message_raises :
    handle_DATA ⟨.ok ⟨200, "u;k".data⟩,
        .ok ⟨201, [("result".data, "OK".data)]⟩⟩
      ⟨"fa".data, ["15551234567@gw.local".data],
        "Subject: code\n\nYour code is 4821".data⟩ =
    (.raisesIndexError, ⟨0, [], none⟩) := by decide

/-- Claim C2 counterexample: a transaction whose SMS submission fails
(the POST answers status 500, so send_sms returns None and the error
branch is taken) is still answered with the SMTP success reply 250 OK. -/
theorem c2_failed_send_still_250 :
    handle_DATA ⟨.ok ⟨200, "u;k".data⟩, .ok ⟨500, []⟩⟩
      ⟨"fa".data, ["15551234567@gw.local".data], "a>b>c".data⟩ =
    (.reply "250 OK",
      ⟨1, [⟨"c".data, "N".data, false, ["15551234567".data], "ACME".data⟩],
        some false⟩) := by decide

/-- Claim C2 amended: the only SMTP response string handle_DATA ever
returns is 250 OK, whatever the SMS outcome was; failure paths that do
not reach source line 142 produce no SMTP response at all (an unhandled
exception or a process exit), so no 4xx or 550 reply is ever produced. -/
theorem c2_only_reply_is_250 (env : Env) (e : Envelope) (c : String)
    (h : (handle_DATA env e).1 = .reply c) : c = "250 OK" := by
  rcases e with ⟨mf, rcpts, s⟩
  unfold handle_DATA at h
  repeat' split at h
  all_goals simp_all

/-- Witness for the amended claim C2 at a concrete transaction. -/
theorem c2_only_reply_is_250_witness :
    ((handle_DATA ⟨.ok ⟨200, "u;k".data⟩,
          .ok ⟨201, [("result".data, "OK".data)]⟩⟩
        ⟨"fa".data, ["15551234567@gw.local".data], "a>b>c".data⟩).1 =
      .reply "250 OK") ∧ ("250 OK" : String) = "250 OK" :=
  ⟨by decide,
    c2_only_reply_is_250 ⟨.ok ⟨200, "u;k".data⟩,
        .ok ⟨201, [("result".data, "OK".data)]⟩⟩
      ⟨"fa".data, ["15551234567@gw.local".data], "a>b>c".data⟩
      "250 OK" (by decide)⟩

/-- Claim C3 counterexample: on a transaction with an empty recipient
list, handle_DATA raises an unhandled IndexError (indexing rcpt_tos at 0
on source line 112); it does not return the 550 reply the claim
requires, although it indeed performs no API call. -/
theorem c3_empty_recipients_raises :
    handle_DATA ⟨.ok ⟨200, "u;k".data⟩,
        .ok ⟨201, [("result".data, "OK".data)]⟩⟩
      ⟨"fa".data, [], "a>b>c".data⟩ =
    (.raisesIndexError, ⟨0, [], none⟩) := by decide

/-- Claim C3 amended: on every transaction with an empty recipient list,
handle_DATA raises an unhandled IndexError before any API call (no login
call and no send_sms call are made), and returns no SMTP response. -/
theorem c3_empty_recipients_no_api_call (env : Env) (mf s : List Char) :
    handle_DATA env ⟨mf, [], s⟩ = (.raisesIndexError, ⟨0, [], none⟩) := rfl

/-- Claim C5 counterexample: with the POST answering status 401 (an
authentication failure on the first send), handle_DATA performs exactly
one login call and exactly one send_sms call, and replies 250 OK: no
credential re-acquisition, no retry, and no 4xx reply. -/
theorem c5_auth_failure_not_retried :
    handle_DATA ⟨.ok ⟨200, "u;k".data⟩, .ok ⟨401, []⟩⟩
      ⟨"fa".data, ["15551234567@gw.local".data], "a>b>c".data⟩ =
    (.reply "250 OK",
      ⟨1, [⟨"c".data, "N".data, false, ["15551234567".data], "ACME".data⟩],
        some false⟩) := by decide

/-- Claim C5 amended: handle_DATA never retries anything: on every
transaction it performs at most one login call and at most one send_sms
call, whatever the outcome of either. -/
theorem c5_at_most_one_call_each (env : Env) (e : Envelope) :
    (handle_DATA env e).2.loginCalls ≤ 1 ∧
      (handle_DATA env e).2.smsCalls.length ≤ 1 := by
  rcases e with ⟨mf, rcpts, s⟩
  unfold handle_DATA
  repeat' split
  all_goals simp

/-- Claim C6 counterexample: a transport failure of the POST propagates
out of send_sms as an unhandled exception rather than being surfaced as
a provider error value, and an authentication status 401 produces
exactly the same return value as a generic server error 500 (None in
both cases), so the client does not map 401 to a distinct auth-failure
outcome. -/
theorem c6_transport_error_propagates :
    send_sms ("u".data, "k".data)
        ⟨"m".data, "N".data, false, ["1".data], "ACME".data⟩
        .transportError = .raisesTransportError ∧
    send_sms ("u".data, "k".data)
        ⟨"m".data, "N".data, false, ["1".data], "ACME".data⟩
        (.ok ⟨401, []⟩) =
      send_sms ("u".data, "k".data)
        ⟨"m".data, "N".data, false, ["1".data], "ACME".data⟩
        (.ok ⟨500, []⟩) := by constructor <;> rfl

/-- Claim C6 amended: send_sms returns None for every response whose
status is not 201 (401 and 403 included, with no distinction from other
errors), returns the JSON object parsed from the body on status 201
without inspecting its result field (the caller inspects it, and only to
pick a log line), and a transport failure of the POST propagates as an
unhandled exception. -/
theorem c6_send_sms_status_mapping (k : List Char × List Char)
    (p : SmsPayload) (resp : SmsHttpResponse) :
    (resp.status_code ≠ 201 → send_sms k p (.ok resp) = .returns none) ∧
    (resp.status_code = 201 →
      send_sms k p (.ok resp) = .returns (some resp.json_fields)) ∧
    send_sms k p .transportError = .raisesTransportError := by
  refine ⟨fun h => ?_, fun h => ?_, rfl⟩ <;> simp [send_sms, h]

/-- Witness for the amended claim C6 at a concrete response. -/
theorem c6_send_sms_status_mapping_witness :
    (500 ≠ 201) ∧
    send_sms ("u".data, "k".data)
        ⟨"m".data, "N".data, false, ["1".data], "ACME".data⟩
        (.ok ⟨500, []⟩) = .returns none :=
  ⟨by decide,
    (c6_send_sms_status_mapping ("u".data, "k".data)
        ⟨"m".data, "N".data, false, ["1".data], "ACME".data⟩
        ⟨500, []⟩).1 (by decide)⟩

/-- Claim C7 counterexample: a login response with the 2xx status 201
and a well-formed two-field body makes login return None instead of the
key pair (the code compares the status with 200 only), and a response
with status 200 and a body without a semicolon makes the unpacking
assignment raise an unhandled ValueError instead of returning a
structured malformed-response error. -/
theorem c7_login_2xx_and_malformed :
    login "john".data "paswd1234".data (.ok ⟨201, "u;k".data⟩) =
      .returns none ∧
    login "john".data "paswd1234".data (.ok ⟨200, "abc".data⟩) =
      .raisesValueError := by constructor <;> rfl

/-- Claim C7 amended: login returns None exactly when the status differs
from 200 (other 2xx statuses included); on status 200 it returns the
pair of the two semicolon-separated fields of the body when there are
exactly two, and raises an unhandled ValueError otherwise; a transport
failure of the GET propagates as an exception. -/
theorem c7_login_status_mapping (u p : List Char) (resp : HttpResponse) :
    (resp.status_code ≠ 200 → login u p (.ok resp) = .returns none) ∧
    (resp.status_code = 200 → ∀ uk sk, pySplit ';' resp.text = [uk, sk] →
      login u p (.ok resp) = .returns (some (uk, sk))) ∧
    (resp.status_code = 200 → (∀ uk sk, pySplit ';' resp.text ≠ [uk, sk]) →
      login u p (.ok resp) = .raisesValueError) ∧
    login u p .transportError = .raisesTransportError := by
  refine ⟨fun h => by simp [login, h],
    fun h uk sk hsp => by simp [login, h, hsp], fun h hne => ?_, rfl⟩
  rcases hsp : pySplit ';' resp.text with _ | ⟨a, _ | ⟨b, _ | ⟨c, t⟩⟩⟩
  · simp [login, h, hsp]
  · simp [login, h, hsp]
  · exact absurd hsp (hne a b)
  · simp [login, h, hsp]

/-- Witness for the amended claim C7 at a concrete response. -/
theorem c7_login_status_mapping_witness :
    (500 ≠ 200) ∧
    login "john".data "paswd1234".data (.ok ⟨500, []⟩) = .returns none :=
  ⟨by decide,
    (c7_login_status_mapping "john".data "paswd1234".data
      ⟨500, []⟩).1 (by decide)⟩

/-- Claim C8 counterexample: a transaction whose first recipient has an
empty local-part and whose body extraction yields the empty string is
not rejected: the payload with empty recipient number and empty message
is built, both API calls happen, and the handler replies 250 OK. -/
theorem c8_no_validation_empty_forwarded :
    handle_DATA ⟨.ok ⟨200, "u;k".data⟩,
        .ok ⟨201, [("result".data, "OK".data)]⟩⟩
      ⟨"fa".data, ["@gw.local".data], "a>>".data⟩ =
    (.reply "250 OK",
      ⟨1, [⟨[], "N".data, false, [[]], "ACME".data⟩], some true⟩) := by decide

/-- Claim C8 amended: handle_DATA validates nothing about the recipient:
every payload it submits carries, as its only recipient number, the raw
local-part of the first recipient address (whatever characters it holds,
empty included), and transactions are never rejected for recipient
format before the API calls. -/
theorem c8_recipient_forwarded_raw (env : Env) (mf r0 s : List Char)
    (rest : List (List Char)) (p : SmsPayload)
    (hp : p ∈ (handle_DATA env ⟨mf, r0 :: rest, s⟩).2.smsCalls) :
    p.recipient = [recipient_number_of r0] := by
  unfold handle_DATA at hp
  repeat' split at hp
  all_goals simp_all [sms_payload_of]

/-- Witness for the amended claim C8 at a concrete transaction. -/
theorem c8_recipient_forwarded_raw_witness :
    ((⟨"c".data, "N".data, false, ["abc".data], "ACME".data⟩ : SmsPayload) ∈
      (handle_DATA ⟨.ok ⟨200, "u;k".data⟩, .ok ⟨201, []⟩⟩
        ⟨"fa".data, "abc@gw.local".data :: [], "a>b>c".data⟩).2.smsCalls) ∧
    (⟨"c".data, "N".data, false, ["abc".data], "ACME".data⟩ :
        SmsPayload).recipient =
      [recipient_number_of "abc@gw.local".data] :=
  ⟨by decide,
    c8_recipient_forwarded_raw ⟨.ok ⟨200, "u;k".data⟩, .ok ⟨201, []⟩⟩
      "fa".data "abc@gw.local".data "a>b>c".data []
      ⟨"c".data, "N".data, false, ["abc".data], "ACME".data⟩ (by decide)⟩

end FaGateway
